import Mathlib

/-!
Verification of the Happy Stacks task lifecycle guards
(`.edison/packs/happy-stacks/guards/task.py`).

The module is a pure validation layer: it reads one task document's
front-matter, environment variables, and possibly a parent task's
front-matter, and applies a fixed sequence of presence/equality checks,
raising a `ValueError` with a remediation message on any violation.

Shallow embedding conventions:
- Python heterogeneous values (front-matter fields, call-context entries)
  become the inductive `Val`; mappings become association lists.
- `raise ValueError(msg)` becomes `Except.error msg`; a returned bool
  becomes `Except.ok b`.
- External collaborators (the task repository, file reads, the
  front-matter parser, the builtin base guards) become fields of `World`,
  each an `Except`-valued function, so that "the collaborator raised" is
  representable.
- `os.environ` becomes an association list of strings.
- The Python string methods used by the guards (`strip`, `lower`, `upper`,
  `replace`, `split`, `in`) are given structurally recursive definitions
  over the character list of a string, so every guard run on concrete
  input evaluates by definitional reduction.
-/

namespace HappyStacks

/-- The characters removed by Python `str.strip()` (the ASCII whitespace set). -/
def isPySpace (c : Char) : Bool :=
  c == ' ' || c == '\t' || c == '\n' || c == '\r' || c == '\x0b' || c == '\x0c'

/-- Python `s.strip()`: drop leading and trailing whitespace. -/
def pyStrip (s : String) : String :=
  String.mk (((s.data.dropWhile isPySpace).reverse.dropWhile isPySpace).reverse)

/-- Python `s.lower()` (on the ASCII range used by the guards). -/
def pyLower (s : String) : String := String.mk (s.data.map Char.toLower)

/-- Python `s.upper()` (on the ASCII range used by the guards). -/
def pyUpper (s : String) : String := String.mk (s.data.map Char.toUpper)

/-- Whether `pat` is an initial run of `cs`. -/
def leadsWith : List Char → List Char → Bool
  | [], _ => true
  | _ :: _, [] => false
  | p :: ps, c :: cs => p == c && leadsWith ps cs

/-- Fuel-bounded left-to-right non-overlapping replacement on char lists;
fuel at least the list length makes the bound inert. -/
def replAux (pat rep : List Char) : Nat → List Char → List Char
  | _, [] => []
  | 0, cs => cs
  | Nat.succ fuel, c :: cs =>
    if leadsWith pat (c :: cs) then rep ++ replAux pat rep fuel (List.drop (pat.length - 1) cs)
    else c :: replAux pat rep fuel cs

/-- Python `s.replace(pat, rep)` for a non-empty `pat`. -/
def pyReplace (s pat rep : String) : String :=
  if pat.data.isEmpty then s
  else String.mk (replAux pat.data rep.data s.data.length s.data)

/-- Occurrence test of a char-list pattern at any position. -/
def containsAux (pat : List Char) : List Char → Bool
  | [] => pat.isEmpty
  | c :: cs => leadsWith pat (c :: cs) || containsAux pat cs

/-- Python `sub in s`: substring containment. -/
def strContains (s sub : String) : Bool := containsAux sub.data s.data

/-- Accumulating splitter for a single-character separator. -/
def splitCharAux (sep : Char) : List Char → List Char → List String
  | [], acc => [String.mk acc.reverse]
  | c :: cs, acc =>
    if c == sep then String.mk acc.reverse :: splitCharAux sep cs []
    else splitCharAux sep cs (c :: acc)

/-- Python `s.split(sep)` for a single-character separator: on the empty
string this is `[""]`, as in Python. -/
def pySplitChar (sep : Char) (s : String) : List String := splitCharAux sep s.data []

/-- A Python value as it occurs in parsed front-matter / the call context. -/
inductive Val where
  | vnone : Val
  | vstr : String → Val
  | vint : Int → Val
  | vbool : Bool → Val
  | vpath : String → Val
  | vlist : List Val → Val
  | vmap : List (String × Val) → Val

/-- A front-matter mapping (and the call-context mapping): string keys to values. -/
def Frontmatter := List (String × Val)

/-- The guard call context (`ctx`), a mapping like the front-matter. -/
def Ctx := List (String × Val)

/-- Python `d.get(k)`: the first value bound to `k`, or `None` when absent. -/
def fmGet : List (String × Val) → String → Val
  | [], _ => .vnone
  | (k, v) :: rest, key => if k == key then v else fmGet rest key

/-- Python truthiness of a `Val` (`bool(v)`). -/
def pyTruthy : Val → Bool
  | .vnone => false
  | .vstr s => s != ""
  | .vint n => n != 0
  | .vbool b => b
  | .vpath _ => true
  | .vlist xs => !xs.isEmpty
  | .vmap m => !m.isEmpty

/-- Python `a or b`: `a` when truthy, else `b`. -/
def pyOr (a b : Val) : Val := if pyTruthy a then a else b

mutual

/-- Python `repr` of a value (as used by `str` on containers). -/
def pyRepr : Val → String
  | .vnone => "None"
  | .vstr s => "\x27" ++ s ++ "\x27"
  | .vint n => toString n
  | .vbool b => if b then "True" else "False"
  | .vpath p => "PosixPath(\x27" ++ p ++ "\x27)"
  | .vlist xs => "[" ++ pyReprList xs ++ "]"
  | .vmap m => "\x7b" ++ pyReprMap m ++ "\x7d"

/-- Comma-joined reprs of the elements of a list. -/
def pyReprList : List Val → String
  | [] => ""
  | [x] => pyRepr x
  | x :: y :: xs => pyRepr x ++ ", " ++ pyReprList (y :: xs)

/-- Comma-joined `key: value` reprs of the entries of a mapping. -/
def pyReprMap : List (String × Val) → String
  | [] => ""
  | [(k, v)] => "\x27" ++ k ++ "\x27: " ++ pyRepr v
  | (k, v) :: e :: rest => "\x27" ++ k ++ "\x27: " ++ pyRepr v ++ ", " ++ pyReprMap (e :: rest)

end

/-- Python `str(v)`. -/
def pyStr : Val → String
  | .vstr s => s
  | .vpath p => p
  | v => pyRepr v

/-- Python `str(v or "")`: the string form of a truthy value, else `""`. -/
def strOr (v : Val) : String := if pyTruthy v then pyStr v else ""

/-- Lookup in the modelled environment (`os.environ.get`). -/
def envGet : List (String × String) → String → Option String
  | [], _ => none
  | (k, v) :: rest, key => if k == key then some v else envGet rest key

/-- Python `str(os.environ.get(k1) or os.environ.get(k2) or "")`. -/
def envOr (env : List (String × String)) (k1 k2 : String) : String :=
  let a := (envGet env k1).getD ""
  if a != "" then a else (envGet env k2).getD ""

/-- The external collaborators of the guard module: the task repository
(`get_path`, `get`), the filesystem (`read_text`, `Path.resolve`), the
front-matter parser, the builtin base guards, and the environment.
`Except.error` models the collaborator raising. -/
structure World where
  env : List (String × String)
  resolvePath : String → Option String
  getPath : Option String → String → Except String String
  readText : String → Except String String
  parseFM : String → Except String Val
  getTask : Option String → String → Option String
  baseStart : Ctx → Except String Bool
  baseFinish : Ctx → Except String Bool

/-- Embeds `_get_project_root`: a `Path` value is returned as-is; a
non-empty string is resolved (resolution failure gives `None`); anything
else gives `None`. -/
def get_project_root (w : World) (ctx : Ctx) : Option String :=
  match fmGet ctx "project_root" with
  | .vpath p => some p
  | .vstr s => if pyStrip s != "" then w.resolvePath s else none
  | _ => none

/-- Embeds the task-id resolution in `_load_task_frontmatter`:
`ctx.get("task_id") or ctx.get("entity_id")`, falling back to
`ctx.get("task").get("id")` when `task` is a mapping; falsy means none. -/
def resolveTaskId (ctx : Ctx) : Option Val :=
  let t := pyOr (fmGet ctx "task_id") (fmGet ctx "entity_id")
  let t :=
    if pyTruthy t then t
    else
      match fmGet ctx "task" with
      | .vmap m => fmGet m "id"
      | _ => t
  if pyTruthy t then some t else none

/-- Embeds `_load_task_frontmatter`: resolve a task id (none resolvable
means no metadata), look up the document path, read and parse it; every
collaborator failure is swallowed into `none`; a non-dict parse result
becomes the empty mapping. -/
def load_task_frontmatter (w : World) (ctx : Ctx) : Except String (Option Frontmatter) :=
  match resolveTaskId ctx with
  | none => .ok none
  | some tid =>
    let root := get_project_root w ctx
    match w.getPath root (pyStr tid) with
    | .error _ => .ok none
    | .ok path =>
      match (match w.readText path with
             | .error e => Except.error e
             | .ok txt => w.parseFM txt) with
      | .error _ => .ok none
      | .ok fmv =>
        .ok (some (match fmv with
                   | .vmap m => m
                   | _ => []))

/-- The `missing required task frontmatter key stack` message. -/
def msg_missing_stack_key : String :=
  "Happy Stacks: missing required task frontmatter key `stack`.\nFix: edit the task file and set:\n  stack: <stack>\nThen run Edison via:\n  happys edison --stack=<stack> -- <edison ...>"

/-- The `missing stack context` message, parameterized by the task's stack. -/
def msg_missing_stack_context (stack_task : String) : String :=
  "Happy Stacks: missing stack context (HAPPY_STACKS_STACK).\nFix: run Edison through the stack wrapper:\n  happys edison --stack=" ++ stack_task ++ " -- <edison ...>"

/-- The `stack mismatch` message, showing the env and task stacks. -/
def msg_stack_mismatch (stack_env stack_task : String) : String :=
  "Happy Stacks: stack mismatch.\n- env stack: " ++ stack_env ++ "\n- task stack: " ++ stack_task ++ "\nFix: re-run with:\n  happys edison --stack=" ++ stack_task ++ " -- <edison ...>"

/-- Embeds `_require_stack_context`: parent tasks are exempt; otherwise the
task's `stack` field must be non-empty, the environment stack
(`HAPPY_STACKS_STACK`, falling back to `HAPPY_LOCAL_STACK`) must be
non-empty, and the two must agree. -/
def require_stack_context (env : List (String × String)) (ctx : Ctx) (fm : Frontmatter) : Except String Bool :=
  let _ := ctx
  let hs_kind := pyLower (pyStrip (strOr (fmGet fm "hs_kind")))
  if hs_kind == "parent" then .ok true
  else
    let stack_env := pyStrip (envOr env "HAPPY_STACKS_STACK" "HAPPY_LOCAL_STACK")
    let stack_task := pyStrip (strOr (fmGet fm "stack"))
    if stack_task == "" then .error msg_missing_stack_key
    else if stack_env == "" then .error (msg_missing_stack_context stack_task)
    else if stack_env != stack_task then .error (msg_stack_mismatch stack_env stack_task)
    else .ok (stack_env == stack_task)

/-- Scan of the `relationships` entries in `_get_parent_id_from_relationships`:
the first mapping entry whose `type` is `parent` decides (its `target`, or
none when that target is empty). -/
def relLoop : List Val → Option String
  | [] => none
  | e :: rest =>
    match e with
    | .vmap m =>
      if pyStrip (strOr (fmGet m "type")) == "parent" then
        let t := pyStrip (strOr (fmGet m "target"))
        if t == "" then none else some t
      else relLoop rest
    | _ => relLoop rest

/-- Embeds `_get_parent_id_from_relationships`. -/
def get_parent_id_from_relationships (fm : Frontmatter) : Option String :=
  match fmGet fm "relationships" with
  | .vlist rels => relLoop rels
  | _ => none

/-- The task id interpolated into `_require_base_metadata` messages:
`ctx.get("task_id") or ctx.get("entity_id") or ""`. -/
def ctxTaskIdOrEmpty (ctx : Ctx) : String :=
  pyStr (pyOr (fmGet ctx "task_id") (pyOr (fmGet ctx "entity_id") (.vstr "")))

/-- Embeds `_require_base_metadata`: `hs_kind` must be one of the three
kinds; parents need nothing more; track/component need a non-empty
`base_task`; components additionally need a non-empty `base_worktree`. -/
def require_base_metadata (ctx : Ctx) (fm : Frontmatter) : Except String Bool :=
  let hs_kind := pyLower (pyStrip (strOr (fmGet fm "hs_kind")))
  if hs_kind != "parent" && hs_kind != "track" && hs_kind != "component" then
    .error "Happy Stacks: missing/invalid `hs_kind`.\nFix: set `hs_kind: parent|track|component` in task frontmatter."
  else if hs_kind == "parent" then .ok true
  else
    let base_task := pyStrip (strOr (fmGet fm "base_task"))
    if base_task == "" then
      .error ("Happy Stacks: missing required task frontmatter key `base_task`.\nFix (recommended):\n  happys edison task:scaffold " ++ ctxTaskIdOrEmpty ctx ++ " --yes\nOr set:\n  base_task: <parent-feature-task-id>")
    else if hs_kind == "component" then
      let base_wt := pyStrip (strOr (fmGet fm "base_worktree"))
      if base_wt == "" then
        .error ("Happy Stacks: missing required task frontmatter key `base_worktree`.\nFix (recommended):\n  happys edison task:scaffold " ++ ctxTaskIdOrEmpty ctx ++ " --yes\nOr set:\n  base_worktree: edison/<task-id>")
      else .ok true
    else .ok true

/-- Parse of a `components` front-matter value: a list is mapped through
`str(x).strip()` dropping empties; a non-blank string is comma-split and
stripped dropping empties; anything else is empty. -/
def parseComponentsVal : Val → List String
  | .vlist xs => (xs.map (fun x => pyStrip (pyStr x))).filter (fun s => s != "")
  | .vstr s =>
    if pyStrip s != "" then ((pySplitChar ',' s).map pyStrip).filter (fun p => p != "")
    else []
  | _ => []

/-- Component derivation for a component-kind task in
`_require_worktree_component_dirs`: a non-blank string `component` field
wins outright; otherwise fall back to the `components` field. -/
def deriveComponentsComponent (fm : Frontmatter) : List String :=
  match fmGet fm "component" with
  | .vstr s => if pyStrip s != "" then [pyStrip s] else parseComponentsVal (fmGet fm "components")
  | _ => parseComponentsVal (fmGet fm "components")

/-- The `missing/invalid hs_kind` message of `_require_worktree_component_dirs`. -/
def msg_wcd_kind : String :=
  "Happy Stacks: missing/invalid `hs_kind`.\nFix:\n  - set `hs_kind: track` on the track/integration task\n  - set `hs_kind: component` on each component implementation task"

/-- The `must target exactly one component` message. -/
def msg_exactly_one : String :=
  "Happy Stacks: component task must target exactly one component.\nFix: set `component: happy` (or `components: [happy]`)."

/-- The `must declare component(s)` message. -/
def msg_declare_components : String :=
  "Happy Stacks: task must declare component(s) in frontmatter.\nFix: set `components: [...]` (parent) or `component: ...` (component subtask)."

/-- The primary component-dir override variable name for a component. -/
def componentDirKey (c : String) : String :=
  "HAPPY_STACKS_COMPONENT_DIR_" ++ pyReplace (pyUpper c) "-" "_"

/-- The legacy component-dir override variable name for a component. -/
def componentDirLegacy (c : String) : String :=
  "HAPPY_LOCAL_COMPONENT_DIR_" ++ pyReplace (pyUpper c) "-" "_"

/-- The `missing stack component dir override` message for a component. -/
def msg_missing_dir (c : String) : String :=
  "Happy Stacks: missing stack component dir override for " ++ c ++ ".\nFix (recommended):\n  happys edison task:scaffold <task-id> --yes\nOr manually:\n  happys wt new " ++ c ++ " edison/<task-id>\n  happys stack wt <stack> -- use " ++ c ++ " /abs/path/to/worktree"

/-- The `not a worktree path` message for a component. -/
def msg_not_worktree (c : String) : String :=
  "Happy Stacks: component dir for " ++ c ++ " is not a worktree path.\nRefusing to operate on default checkouts under components/<component>.\nFix (recommended):\n  happys edison task:scaffold <task-id> --yes\nOr:\n  happys stack wt <stack> -- use " ++ c ++ " <owner/branch|/abs/path>"

/-- The per-component loop of `_require_worktree_component_dirs`: each
component's override variable (primary, falling back to legacy) must be
non-empty and its separator-normalized value must contain the literal
`/components/.worktrees/` segment. -/
def checkComponentDirs (env : List (String × String)) : List String → Except String Bool
  | [] => .ok true
  | c :: rest =>
    let path := pyStrip (envOr env (componentDirKey c) (componentDirLegacy c))
    if path == "" then .error (msg_missing_dir c)
    else if !(strContains (pyReplace path "\\" "/") "/components/.worktrees/") then
      .error (msg_not_worktree c)
    else checkComponentDirs env rest

/-- Embeds `_require_worktree_component_dirs`. -/
def require_worktree_component_dirs (env : List (String × String)) (fm : Frontmatter) : Except String Bool :=
  let hs_kind := pyLower (pyStrip (strOr (fmGet fm "hs_kind")))
  if hs_kind != "track" && hs_kind != "component" then .error msg_wcd_kind
  else
    let comps :=
      if hs_kind == "track" then parseComponentsVal (fmGet fm "components")
      else deriveComponentsComponent fm
    if hs_kind != "track" && comps.length != 1 then .error msg_exactly_one
    else if comps.isEmpty then .error msg_declare_components
    else checkComponentDirs env comps

/-- The parent front-matter load in `_require_parent_subtask_structure`:
path lookup, read and parse of the parent document, any failure (or a
non-mapping result) degrading to the empty mapping. -/
def parentFmOf (w : World) (root : Option String) (pid : String) : Frontmatter :=
  match w.getPath root pid with
  | .error _ => []
  | .ok path =>
    match (match w.readText path with
           | .error e => Except.error e
           | .ok txt => w.parseFM txt) with
    | .error _ => []
    | .ok v =>
      match v with
      | .vmap m => m
      | _ => []

/-- The head literal of the `refusing to claim/finish a parent task` message. -/
def msg_parent_refuse_head : String :=
  "Happy Stacks: refusing to claim/finish a parent task.\nParent tasks are planning umbrellas and should spawn track + component subtasks.\nFix (recommended):\n  - Create a track task (hs_kind=track) as a child of this parent\n  - Create component tasks (hs_kind=component) as children of the track\n  - Or run:\n    happys edison task:scaffold "

/-- The `refusing to claim/finish a parent task` message (interpolating the
context's task id, defaulting to a placeholder). -/
def msg_parent_refuse (ctx : Ctx) : String :=
  msg_parent_refuse_head ++ (pyStr (pyOr (fmGet ctx "task_id") (pyOr (fmGet ctx "entity_id") (.vstr "<parent-task-id>"))) ++ " --yes\n")

/-- The `must have a parent relationship` message. -/
def msg_need_parent_rel : String :=
  "Happy Stacks: task must have a parent relationship (canonical `relationships:`).\nFix:\n  edison task link <parent_id> <child_id>\nOr (recommended):\n  happys edison task:scaffold <parent-task-id> --yes"

/-- The `parent task not found` message. -/
def msg_parent_not_found (parent_id : String) : String :=
  "Happy Stacks: parent task not found: " ++ parent_id ++ "\nFix: ensure the parent task exists or re-link tasks."

/-- Display of a possibly-missing parent kind (`parent_kind or missing`). -/
def kindOrMissing (pk : String) : String := if pk == "" then "<missing>" else pk

/-- The `track tasks must be children of a parent task` message. -/
def msg_track_parent (parent_id pk : String) : String :=
  "Happy Stacks: track tasks must be children of a parent task.\n- this task: hs_kind=track\n- parent: " ++ parent_id ++ " hs_kind=" ++ kindOrMissing pk ++ "\nFix: link the track under the umbrella parent task."

/-- The `track task must declare track` message. -/
def msg_track_name : String :=
  "Happy Stacks: track task must declare `track` (e.g. upstream|fork|integration).\nFix: set `track: upstream` in task frontmatter."

/-- The `track task must declare components` message. -/
def msg_track_components : String :=
  "Happy Stacks: track task must declare `components`.\nFix: set `components: [happy, happy-cli, ...]` in task frontmatter."

/-- The `component tasks must be children of a track task` message. -/
def msg_comp_parent (parent_id pk : String) : String :=
  "Happy Stacks: component tasks must be children of a track task.\n- this task: hs_kind=component\n- parent: " ++ parent_id ++ " hs_kind=" ++ kindOrMissing pk ++ "\nFix: link this component task under the correct track task."

/-- The `component task stack must match its track stack` message. -/
def msg_stack_match (parent_stack this_stack : String) : String :=
  "Happy Stacks: component task stack must match its track stack.\n- track stack: " ++ parent_stack ++ "\n- task stack: " ++ this_stack ++ "\nFix: set this task\x27s `stack` to match the track task."

/-- Embeds `_require_parent_subtask_structure`: parents always raise;
track/component tasks must carry a parent relationship whose resolved
parent has the right kind; track tasks must declare `track` and
`components`; component tasks must agree with the track's `stack` when
both declare one. -/
def require_parent_subtask_structure (w : World) (ctx : Ctx) (fm : Frontmatter) : Except String Bool :=
  let hs_kind := pyLower (pyStrip (strOr (fmGet fm "hs_kind")))
  if hs_kind != "parent" && hs_kind != "track" && hs_kind != "component" then
    .error "Happy Stacks: missing/invalid `hs_kind` (expected parent|track|component)."
  else if hs_kind == "parent" then .error (msg_parent_refuse ctx)
  else
    match get_parent_id_from_relationships fm with
    | none => .error msg_need_parent_rel
    | some parent_id =>
      let root := get_project_root w ctx
      match w.getTask root parent_id with
      | none => .error (msg_parent_not_found parent_id)
      | some real_id =>
        let parent_fm := parentFmOf w root real_id
        let parent_kind := pyLower (pyStrip (strOr (fmGet parent_fm "hs_kind")))
        if hs_kind == "track" then
          if parent_kind != "parent" then .error (msg_track_parent parent_id parent_kind)
          else
            let track_name := pyStrip (strOr (fmGet fm "track"))
            if track_name == "" then .error msg_track_name
            else
              let comps := parseComponentsVal (fmGet fm "components")
              if comps.length == 0 then .error msg_track_components
              else .ok true
        else
          if parent_kind != "track" then .error (msg_comp_parent parent_id parent_kind)
          else
            let parent_stack := pyStrip (strOr (fmGet parent_fm "stack"))
            let this_stack := pyStrip (strOr (fmGet fm "stack"))
            if parent_stack != "" && this_stack != "" && parent_stack != this_stack then
              .error (msg_stack_match parent_stack this_stack)
            else .ok true

/-- The `cannot read task frontmatter` message raised by the entry points. -/
def msg_cannot_read_fm : String :=
  "Happy Stacks: cannot read task frontmatter (missing/invalid YAML frontmatter)."

/-- Python short-circuit `and` over the raise-or-bool checkers. -/
def andThenBool (a : Except String Bool) (b : Unit → Except String Bool) : Except String Bool :=
  match a with
  | .error e => .error e
  | .ok false => .ok false
  | .ok true => b ()

/-- The four-checker conjunction shared verbatim by both entry points. -/
def runChecks (w : World) (ctx : Ctx) (fm : Frontmatter) : Except String Bool :=
  andThenBool (require_stack_context w.env ctx fm) (fun _ =>
    andThenBool (require_parent_subtask_structure w ctx fm) (fun _ =>
      andThenBool (require_base_metadata ctx fm) (fun _ =>
        require_worktree_component_dirs w.env fm)))

/-- Embeds `can_start_task`: a failing or raising base predicate gives a
silent `false`; unreadable front-matter raises; otherwise the four
checkers run in sequence. -/
def can_start_task (w : World) (ctx : Ctx) : Except String Bool :=
  match w.baseStart ctx with
  | .error _ => .ok false
  | .ok false => .ok false
  | .ok true =>
    match load_task_frontmatter w ctx with
    | .error e => .error e
    | .ok none => .error msg_cannot_read_fm
    | .ok (some fm) => runChecks w ctx fm

/-- Embeds `can_finish_task`: identical to `can_start_task` except for the
delegated base predicate. -/
def can_finish_task (w : World) (ctx : Ctx) : Except String Bool :=
  match w.baseFinish ctx with
  | .error _ => .ok false
  | .ok false => .ok false
  | .ok true =>
    match load_task_frontmatter w ctx with
    | .error e => .error e
    | .ok none => .error msg_cannot_read_fm
    | .ok (some fm) => runChecks w ctx fm

/-- Call context of the end-to-end component scenario: the acting task id. -/
def ctxC2 : Ctx := [("task_id", Val.vstr "T1")]

/-- Front-matter of the acting component task in the end-to-end scenario. -/
def actFmC2 : Frontmatter :=
  [("hs_kind", Val.vstr "component"), ("stack", Val.vstr "s1"),
   ("base_task", Val.vstr "T"), ("base_worktree", Val.vstr "edison/T"),
   ("component", Val.vstr "happy"),
   ("relationships", Val.vlist [Val.vmap [("type", Val.vstr "parent"), ("target", Val.vstr "TR")]])]

/-- Front-matter of the track task the component is parented to; the track
is itself parented to a parent task `P`. -/
def trackFmC2 : Frontmatter :=
  [("hs_kind", Val.vstr "track"), ("stack", Val.vstr "s1"),
   ("track", Val.vstr "upstream"), ("components", Val.vlist [Val.vstr "happy"]),
   ("relationships", Val.vlist [Val.vmap [("type", Val.vstr "parent"), ("target", Val.vstr "P")]])]

/-- World of the end-to-end scenario: stack `s1` active, the `happy`
component dir pointed at a worktree checkout, both documents readable,
base predicates passing. -/
def wC2 : World where
  env := [("HAPPY_STACKS_STACK", "s1"),
          ("HAPPY_STACKS_COMPONENT_DIR_HAPPY", "/repo/components/.worktrees/happy")]
  resolvePath := fun _ => none
  getPath := fun _ id =>
    if id == "T1" then .ok "p1" else if id == "TR" then .ok "p2" else .error "no such task"
  readText := fun p =>
    if p == "p1" then .ok "d1" else if p == "p2" then .ok "d2" else .error "no such file"
  parseFM := fun d =>
    if d == "d1" then .ok (Val.vmap actFmC2)
    else if d == "d2" then .ok (Val.vmap trackFmC2)
    else .error "parse failure"
  getTask := fun _ id => if id == "TR" then some "TR" else none
  baseStart := fun _ => .ok true
  baseFinish := fun _ => .ok true

/-- Front-matter of a concrete parent-kind task. -/
def fmParent : Frontmatter := [("hs_kind", Val.vstr "parent")]

/-- Call context naming the concrete parent-kind task. -/
def ctxParent : Ctx := [("task_id", Val.vstr "TP")]

/-- World in which task `TP` is a parent-kind task and the base predicates pass. -/
def wParent : World where
  env := []
  resolvePath := fun _ => none
  getPath := fun _ id => if id == "TP" then .ok "pp" else .error "no such task"
  readText := fun p => if p == "pp" then .ok "dp" else .error "no such file"
  parseFM := fun d => if d == "dp" then .ok (Val.vmap fmParent) else .error "parse failure"
  getTask := fun _ _ => none
  baseStart := fun _ => .ok true
  baseFinish := fun _ => .ok true

/-- World with passing base predicates and every repository and filesystem
lookup failing. -/
def wNoLoad : World where
  env := []
  resolvePath := fun _ => none
  getPath := fun _ _ => .error "no repo"
  readText := fun _ => .error "no fs"
  parseFM := fun _ => .error "no parse"
  getTask := fun _ _ => none
  baseStart := fun _ => .ok true
  baseFinish := fun _ => .ok true

/-- Front-matter of a track task whose resolved parent is component-kind
(the wrong kind for a track's parent). -/
def fmTrackBad : Frontmatter :=
  [("hs_kind", Val.vstr "track"),
   ("relationships", Val.vlist [Val.vmap [("type", Val.vstr "parent"), ("target", Val.vstr "PX")]])]

/-- World in which parent task `PX` resolves and carries `hs_kind=component`. -/
def wC5 : World where
  env := []
  resolvePath := fun _ => none
  getPath := fun _ id => if id == "PX" then .ok "pp" else .error "no such task"
  readText := fun p => if p == "pp" then .ok "dd" else .error "no such file"
  parseFM := fun d => if d == "dd" then .ok (Val.vmap [("hs_kind", Val.vstr "component")]) else .error "parse failure"
  getTask := fun _ id => if id == "PX" then some "PX" else none
  baseStart := fun _ => .ok true
  baseFinish := fun _ => .ok true

/-- A component-kind task declaring two components and no singular field. -/
def fmTwoComponents : Frontmatter :=
  [("hs_kind", Val.vstr "component"), ("components", Val.vlist [Val.vstr "a", Val.vstr "b"])]

/-- A component-kind task declaring exactly one component via `components`. -/
def fmOneComponent : Frontmatter :=
  [("hs_kind", Val.vstr "component"), ("components", Val.vlist [Val.vstr "a"])]

/-- A component-kind task with a singular `component` field and a
conflicting two-element `components` list. -/
def fmC10 : Frontmatter :=
  [("hs_kind", Val.vstr "component"), ("component", Val.vstr "happy"),
   ("components", Val.vlist [Val.vstr "a", Val.vstr "b", Val.vstr "c"])]

deriving instance DecidableEq for Except

/-- A non-raising run of StackContext can only return `true`. -/
theorem require_stack_context_ok_true (env : List (String × String)) (ctx : Ctx) (fm : Frontmatter) (b : Bool)
    (h : require_stack_context env ctx fm = .ok b) : b = true := by
  unfold require_stack_context at h
  dsimp only at h
  repeat' split at h
  all_goals simp_all

/-- A non-raising run of BaseMetadata can only return `true`. -/
theorem require_base_metadata_ok_true (ctx : Ctx) (fm : Frontmatter) (b : Bool)
    (h : require_base_metadata ctx fm = .ok b) : b = true := by
  unfold require_base_metadata at h
  dsimp only at h
  repeat' split at h
  all_goals simp_all

/-- A non-raising run of the per-component dir loop can only return `true`. -/
theorem checkComponentDirs_ok_true (env : List (String × String)) (cs : List String) (b : Bool)
    (h : checkComponentDirs env cs = .ok b) : b = true := by
  induction cs with
  | nil => simp [checkComponentDirs] at h; exact h
  | cons c rest ih =>
    unfold checkComponentDirs at h
    dsimp only at h
    repeat' split at h
    all_goals simp_all

/-- A non-raising run of WorktreeComponentDirs can only return `true`. -/
theorem require_worktree_component_dirs_ok_true (env : List (String × String)) (fm : Frontmatter) (b : Bool)
    (h : require_worktree_component_dirs env fm = .ok b) : b = true := by
  unfold require_worktree_component_dirs at h
  dsimp only at h
  repeat' split at h
  all_goals first
    | exact checkComponentDirs_ok_true _ _ _ h
    | simp_all

/-- A non-raising run of ParentStructure can only return `true`. -/
theorem require_parent_subtask_structure_ok_true (w : World) (ctx : Ctx) (fm : Frontmatter) (b : Bool)
    (h : require_parent_subtask_structure w ctx fm = .ok b) : b = true := by
  unfold require_parent_subtask_structure at h
  dsimp only at h
  repeat' split at h
  all_goals simp_all

/-- The short-circuit `and` of two checkers whose non-raising value is
`true` again has non-raising value `true`. -/
theorem andThenBool_ok_true (a : Except String Bool) (f : Unit → Except String Bool) (b : Bool)
    (ha : ∀ b0, a = .ok b0 → b0 = true) (hf : ∀ b0, f () = .ok b0 → b0 = true)
    (h : andThenBool a f = .ok b) : b = true := by
  unfold andThenBool at h
  split at h
  · cases h
  · cases h
    exact ha false rfl
  · exact hf b h

/-- A non-raising run of the four-checker conjunction can only return `true`. -/
theorem runChecks_ok_true (w : World) (ctx : Ctx) (fm : Frontmatter) (b : Bool)
    (h : runChecks w ctx fm = .ok b) : b = true := by
  unfold runChecks at h
  exact andThenBool_ok_true _ _ _ (require_stack_context_ok_true _ _ _)
    (fun b1 hb1 => andThenBool_ok_true _ _ _ (require_parent_subtask_structure_ok_true _ _ _)
      (fun b2 hb2 => andThenBool_ok_true _ _ _ (require_base_metadata_ok_true _ _)
        (fun b3 hb3 => require_worktree_component_dirs_ok_true _ _ _ hb3) hb2) hb1) h

/-- StackContext exempts parent-kind tasks. -/
theorem require_stack_context_parent_kind (env : List (String × String)) (ctx : Ctx) (fm : Frontmatter)
    (hk : pyLower (pyStrip (strOr (fmGet fm "hs_kind"))) = "parent") :
    require_stack_context env ctx fm = .ok true := by
  unfold require_stack_context
  dsimp only
  rw [hk]
  rfl

/-- ParentStructure rejects parent-kind tasks with the refusal message. -/
theorem require_parent_subtask_structure_parent_kind (w : World) (ctx : Ctx) (fm : Frontmatter)
    (hk : pyLower (pyStrip (strOr (fmGet fm "hs_kind"))) = "parent") :
    require_parent_subtask_structure w ctx fm = .error (msg_parent_refuse ctx) := by
  unfold require_parent_subtask_structure
  dsimp only
  rw [hk]
  rfl

set_option maxRecDepth 8192 in
/-- C1: whenever the base start/finish predicate passes and the loaded
front-matter's trimmed, lower-cased `hs_kind` is `parent`, both guard
entry points raise an error containing "refusing to claim/finish a parent
task", regardless of the other front-matter fields and of the environment. -/
theorem C1_parent_task_refused (w : World) (ctx : Ctx) (fm : Frontmatter)
    (hstart : w.baseStart ctx = .ok true) (hfinish : w.baseFinish ctx = .ok true)
    (hload : load_task_frontmatter w ctx = .ok (some fm))
    (hkind : pyLower (pyStrip (strOr (fmGet fm "hs_kind"))) = "parent") :
    (∃ e, can_start_task w ctx = .error e ∧
      ∃ p q, e = p ++ "refusing to claim/finish a parent task" ++ q) ∧
    (∃ e, can_finish_task w ctx = .error e ∧
      ∃ p q, e = p ++ "refusing to claim/finish a parent task" ++ q) := by
  have hrun : runChecks w ctx fm = .error (msg_parent_refuse ctx) := by
    unfold runChecks
    rw [require_stack_context_parent_kind w.env ctx fm hkind]
    rw [require_parent_subtask_structure_parent_kind w ctx fm hkind]
    rfl
  have hdecomp : ∃ p q, msg_parent_refuse ctx = p ++ "refusing to claim/finish a parent task" ++ q := by
    refine ⟨"Happy Stacks: ",
      ".\nParent tasks are planning umbrellas and should spawn track + component subtasks.\nFix (recommended):\n  - Create a track task (hs_kind=track) as a child of this parent\n  - Create component tasks (hs_kind=component) as children of the track\n  - Or run:\n    happys edison task:scaffold " ++
        (pyStr (pyOr (fmGet ctx "task_id") (pyOr (fmGet ctx "entity_id") (.vstr "<parent-task-id>"))) ++ " --yes\n"), ?_⟩
    unfold msg_parent_refuse
    rw [show msg_parent_refuse_head =
      ("Happy Stacks: " ++ "refusing to claim/finish a parent task") ++
        ".\nParent tasks are planning umbrellas and should spawn track + component subtasks.\nFix (recommended):\n  - Create a track task (hs_kind=track) as a child of this parent\n  - Create component tasks (hs_kind=component) as children of the track\n  - Or run:\n    happys edison task:scaffold " from by decide]
    rw [String.append_assoc]
  obtain ⟨p, q, hpq⟩ := hdecomp
  refine ⟨⟨msg_parent_refuse ctx, ?_, p, q, hpq⟩, ⟨msg_parent_refuse ctx, ?_, p, q, hpq⟩⟩
  · unfold can_start_task
    rw [hstart, hload]
    exact hrun
  · unfold can_finish_task
    rw [hfinish, hload]
    exact hrun

/-- Witness for C1 at the concrete parent task `TP`. -/
theorem C1_parent_task_refused_witness :
    (∃ e, can_start_task wParent ctxParent = .error e ∧
      ∃ p q, e = p ++ "refusing to claim/finish a parent task" ++ q) ∧
    (∃ e, can_finish_task wParent ctxParent = .error e ∧
      ∃ p q, e = p ++ "refusing to claim/finish a parent task" ++ q) :=
  C1_parent_task_refused wParent ctxParent fmParent rfl rfl rfl rfl

/-- C2: the concrete end-to-end component scenario — `hs_kind=component`,
`stack=s1`, `base_task=T`, `base_worktree=edison/T`, `component=happy`,
parent relationship to a track task (`hs_kind=track`, `stack=s1`,
`track=upstream`, `components=[happy]`) itself parented to a parent task,
environment `HAPPY_STACKS_STACK=s1` and
`HAPPY_STACKS_COMPONENT_DIR_HAPPY=/repo/components/.worktrees/happy`, and a
passing base predicate — makes `can_start_task` return `true`. -/
theorem C2_component_end_to_end : can_start_task wC2 ctxC2 = .ok true := rfl

/-- C9: the front-matter loader is total for its caller: for every world
(including ones where path resolution, the document read, or the parse
raises) and every call context it returns a result — possibly "no
metadata" — and never propagates an error. -/
theorem C9_loader_total (w : World) (ctx : Ctx) :
    ∃ r, load_task_frontmatter w ctx = .ok r := by
  unfold load_task_frontmatter
  dsimp only
  repeat' split
  all_goals exact ⟨_, rfl⟩

/-- C3 counterexample: with a passing base predicate and no resolvable
task id in the call context, `can_start_task` raises the "cannot read task
frontmatter" error instead of returning a silent `false`, contradicting
the claim that an unresolvable task id is a silent-`false` case. -/
theorem C3_counterexample :
    resolveTaskId ([] : Ctx) = none ∧
    can_start_task wNoLoad ([] : Ctx) = .error msg_cannot_read_fm ∧
    can_start_task wNoLoad ([] : Ctx) ≠ .ok false := ⟨rfl, rfl, by decide⟩

/-- C3 (amended): in both guard entry points the only condition yielding a
silent `false` is the delegated base predicate failing (returning `false`
or raising); an unresolvable task id — like any other front-matter load
failure — raises the "cannot read task frontmatter" error, and every
other rule violation also raises. -/
theorem C3_silent_false_only_base (w : World) (ctx : Ctx) :
    (can_start_task w ctx = .ok false ↔
      (w.baseStart ctx = .ok false ∨ ∃ e, w.baseStart ctx = .error e)) ∧
    (can_finish_task w ctx = .ok false ↔
      (w.baseFinish ctx = .ok false ∨ ∃ e, w.baseFinish ctx = .error e)) ∧
    (w.baseStart ctx = .ok true → resolveTaskId ctx = none →
      can_start_task w ctx = .error msg_cannot_read_fm) ∧
    (w.baseFinish ctx = .ok true → resolveTaskId ctx = none →
      can_finish_task w ctx = .error msg_cannot_read_fm) := by
  refine ⟨?_, ?_, ?_, ?_⟩
  · unfold can_start_task
    cases hb : w.baseStart ctx with
    | error e => simp
    | ok b =>
      cases b with
      | false => simp
      | true =>
        dsimp only
        cases hl : load_task_frontmatter w ctx with
        | error e => simp
        | ok o =>
          cases o with
          | none => simp
          | some fm =>
            dsimp only
            constructor
            · intro h
              exact absurd (runChecks_ok_true w ctx fm false h) (by simp)
            · rintro (h | ⟨e, h⟩) <;> cases h
  · unfold can_finish_task
    cases hb : w.baseFinish ctx with
    | error e => simp
    | ok b =>
      cases b with
      | false => simp
      | true =>
        dsimp only
        cases hl : load_task_frontmatter w ctx with
        | error e => simp
        | ok o =>
          cases o with
          | none => simp
          | some fm =>
            dsimp only
            constructor
            · intro h
              exact absurd (runChecks_ok_true w ctx fm false h) (by simp)
            · rintro (h | ⟨e, h⟩) <;> cases h
  · intro hb hr
    unfold can_start_task
    rw [hb]
    unfold load_task_frontmatter
    rw [hr]
  · intro hb hr
    unfold can_finish_task
    rw [hb]
    unfold load_task_frontmatter
    rw [hr]

/-- Witness for C3 (amended): the concrete empty context with failing
lookups raises "cannot read task frontmatter". -/
theorem C3_silent_false_only_base_witness :
    can_start_task wNoLoad ([] : Ctx) = .error msg_cannot_read_fm :=
  (C3_silent_false_only_base wNoLoad []).2.2.1 rfl rfl

/-- C4 counterexample: for a non-parent task with `stack=alpha` and an
empty environment the environment stack differs from the task's, yet
StackContext raises the missing-stack-context message, which is not the
mismatch message and does not display the environment value — refuting
the claim that any differing environment stack raises "showing both
values". -/
theorem C4_counterexample :
    require_stack_context [] [] [("hs_kind", Val.vstr "track"), ("stack", Val.vstr "alpha")] =
      .error (msg_missing_stack_context "alpha") ∧
    msg_missing_stack_context "alpha" ≠ msg_stack_mismatch "" "alpha" ∧
    strContains (msg_missing_stack_context "alpha") "- env stack:" = false :=
  ⟨rfl, by decide, by decide⟩

set_option maxRecDepth 8192 in
/-- C4 (amended): for every non-parent task, StackContext raises the
missing-key error when the trimmed `stack` field is empty, for any
environment; when the task's `stack` is non-empty it raises the
missing-stack-context message when the environment stack (primary
`HAPPY_STACKS_STACK`, falling back to `HAPPY_LOCAL_STACK`) is empty, and
raises the mismatch message showing both values when the environment
stack is non-empty and different; it returns `true` exactly when both are
non-empty and equal. -/
theorem C4_stack_context_rules (env : List (String × String)) (ctx : Ctx) (fm : Frontmatter)
    (hk : pyLower (pyStrip (strOr (fmGet fm "hs_kind"))) ≠ "parent") :
    (pyStrip (strOr (fmGet fm "stack")) = "" →
      require_stack_context env ctx fm = .error msg_missing_stack_key ∧
      ∃ p q, msg_missing_stack_key = p ++ "`stack`" ++ q) ∧
    (pyStrip (strOr (fmGet fm "stack")) ≠ "" →
      pyStrip (envOr env "HAPPY_STACKS_STACK" "HAPPY_LOCAL_STACK") = "" →
      require_stack_context env ctx fm =
        .error (msg_missing_stack_context (pyStrip (strOr (fmGet fm "stack"))))) ∧
    (pyStrip (strOr (fmGet fm "stack")) ≠ "" →
      pyStrip (envOr env "HAPPY_STACKS_STACK" "HAPPY_LOCAL_STACK") ≠ "" →
      pyStrip (envOr env "HAPPY_STACKS_STACK" "HAPPY_LOCAL_STACK") ≠ pyStrip (strOr (fmGet fm "stack")) →
      require_stack_context env ctx fm =
        .error (msg_stack_mismatch (pyStrip (envOr env "HAPPY_STACKS_STACK" "HAPPY_LOCAL_STACK"))
          (pyStrip (strOr (fmGet fm "stack")))) ∧
      ∃ p q r, msg_stack_mismatch (pyStrip (envOr env "HAPPY_STACKS_STACK" "HAPPY_LOCAL_STACK"))
          (pyStrip (strOr (fmGet fm "stack"))) =
        p ++ pyStrip (envOr env "HAPPY_STACKS_STACK" "HAPPY_LOCAL_STACK") ++ q ++
          pyStrip (strOr (fmGet fm "stack")) ++ r) ∧
    (require_stack_context env ctx fm = .ok true ↔
      (pyStrip (strOr (fmGet fm "stack")) ≠ "" ∧
       pyStrip (envOr env "HAPPY_STACKS_STACK" "HAPPY_LOCAL_STACK") ≠ "" ∧
       pyStrip (envOr env "HAPPY_STACKS_STACK" "HAPPY_LOCAL_STACK") = pyStrip (strOr (fmGet fm "stack")))) := by
  refine ⟨?_, ?_, ?_, ?_⟩
  · intro hst
    refine ⟨?_, "Happy Stacks: missing required task frontmatter key ",
      ".\nFix: edit the task file and set:\n  stack: <stack>\nThen run Edison via:\n  happys edison --stack=<stack> -- <edison ...>", by decide⟩
    unfold require_stack_context
    dsimp only
    repeat' split
    all_goals simp_all
  · intro hst hse
    unfold require_stack_context
    dsimp only
    repeat' split
    all_goals simp_all
  · intro hst hse hne
    refine ⟨?_, "Happy Stacks: stack mismatch.\n- env stack: ", "\n- task stack: ",
      "\nFix: re-run with:\n  happys edison --stack=" ++
        pyStrip (strOr (fmGet fm "stack")) ++ " -- <edison ...>", ?_⟩
    · unfold require_stack_context
      dsimp only
      repeat' split
      all_goals simp_all
    · simp [msg_stack_mismatch, String.append_assoc]
  · unfold require_stack_context
    dsimp only
    repeat' split
    all_goals simp_all

/-- Witness for C4 (amended) at `stack=alpha` against environment stack
`beta`: the raise shows both values. -/
theorem C4_stack_context_rules_witness :
    require_stack_context [("HAPPY_STACKS_STACK", "beta")] []
        [("hs_kind", Val.vstr "track"), ("stack", Val.vstr "alpha")] =
      .error (msg_stack_mismatch "beta" "alpha") ∧
    ∃ p q r, msg_stack_mismatch "beta" "alpha" = p ++ "beta" ++ q ++ "alpha" ++ r :=
  (C4_stack_context_rules [("HAPPY_STACKS_STACK", "beta")] []
      [("hs_kind", Val.vstr "track"), ("stack", Val.vstr "alpha")]
      (by decide)).2.2.1 (by decide) (by decide) (by decide)

/-- C5: ParentStructure enforces the hierarchy: a track task whose
resolved parent is not parent-kind raises, a component task whose
resolved parent is not track-kind raises, and a component task under a
track raises showing both stacks when both declared `stack` fields are
non-empty and different, while an empty one on either side skips the
stack comparison. -/
theorem C5_parent_structure_hierarchy (w : World) (ctx : Ctx) (fm : Frontmatter) (pid rid : String)
    (hrel : get_parent_id_from_relationships fm = some pid)
    (hget : w.getTask (get_project_root w ctx) pid = some rid) :
    (pyLower (pyStrip (strOr (fmGet fm "hs_kind"))) = "track" →
      pyLower (pyStrip (strOr (fmGet (parentFmOf w (get_project_root w ctx) rid) "hs_kind"))) ≠ "parent" →
      require_parent_subtask_structure w ctx fm =
        .error (msg_track_parent pid
          (pyLower (pyStrip (strOr (fmGet (parentFmOf w (get_project_root w ctx) rid) "hs_kind")))))) ∧
    (pyLower (pyStrip (strOr (fmGet fm "hs_kind"))) = "component" →
      pyLower (pyStrip (strOr (fmGet (parentFmOf w (get_project_root w ctx) rid) "hs_kind"))) ≠ "track" →
      require_parent_subtask_structure w ctx fm =
        .error (msg_comp_parent pid
          (pyLower (pyStrip (strOr (fmGet (parentFmOf w (get_project_root w ctx) rid) "hs_kind")))))) ∧
    (pyLower (pyStrip (strOr (fmGet fm "hs_kind"))) = "component" →
      pyLower (pyStrip (strOr (fmGet (parentFmOf w (get_project_root w ctx) rid) "hs_kind"))) = "track" →
      (pyStrip (strOr (fmGet (parentFmOf w (get_project_root w ctx) rid) "stack")) ≠ "" →
        pyStrip (strOr (fmGet fm "stack")) ≠ "" →
        pyStrip (strOr (fmGet (parentFmOf w (get_project_root w ctx) rid) "stack")) ≠
          pyStrip (strOr (fmGet fm "stack")) →
        require_parent_subtask_structure w ctx fm =
          .error (msg_stack_match
            (pyStrip (strOr (fmGet (parentFmOf w (get_project_root w ctx) rid) "stack")))
            (pyStrip (strOr (fmGet fm "stack"))))) ∧
      ((pyStrip (strOr (fmGet (parentFmOf w (get_project_root w ctx) rid) "stack")) = "" ∨
        pyStrip (strOr (fmGet fm "stack")) = "") →
        require_parent_subtask_structure w ctx fm = .ok true)) := by
  refine ⟨?_, ?_, fun hkc hpk => ⟨?_, ?_⟩⟩
  · intro hkt hpk
    unfold require_parent_subtask_structure
    dsimp only
    rw [hkt, hrel]
    dsimp only
    rw [hget]
    dsimp only
    repeat' split
    all_goals simp_all
  · intro hkc hpk
    unfold require_parent_subtask_structure
    dsimp only
    rw [hkc, hrel]
    dsimp only
    rw [hget]
    dsimp only
    repeat' split
    all_goals simp_all
  · intro hps hts hne
    unfold require_parent_subtask_structure
    dsimp only
    rw [hkc, hrel]
    dsimp only
    rw [hget]
    dsimp only
    repeat' split
    all_goals simp_all
  · intro hor
    unfold require_parent_subtask_structure
    dsimp only
    rw [hkc, hrel]
    dsimp only
    rw [hget]
    dsimp only
    repeat' split
    all_goals simp_all

/-- Witness for C5: a concrete track task whose resolved parent is
component-kind is rejected with the hierarchy error. -/
theorem C5_parent_structure_hierarchy_witness :
    require_parent_subtask_structure wC5 ([] : Ctx) fmTrackBad =
      .error (msg_track_parent "PX" "component") :=
  (C5_parent_structure_hierarchy wC5 [] fmTrackBad "PX" "PX" rfl rfl).1 rfl (by decide)

/-- C6: a component-kind task whose derived component set has two or more
members is rejected with the "must target exactly one component" error;
with exactly one derived component the count check passes and the outcome
is exactly that of the per-component environment checks. -/
theorem C6_exactly_one_component (env : List (String × String)) (fm : Frontmatter)
    (hk : pyLower (pyStrip (strOr (fmGet fm "hs_kind"))) = "component") :
    (2 ≤ (deriveComponentsComponent fm).length →
      require_worktree_component_dirs env fm = .error msg_exactly_one) ∧
    (∀ c, deriveComponentsComponent fm = [c] →
      require_worktree_component_dirs env fm = checkComponentDirs env [c]) := by
  constructor
  · intro h2
    have hne : ((deriveComponentsComponent fm).length != 1) = true := by
      simp only [bne_iff_ne, ne_eq]
      omega
    unfold require_worktree_component_dirs
    dsimp only
    rw [hk]
    simp [hne]
  · intro c hc
    unfold require_worktree_component_dirs
    dsimp only
    rw [hk, hc]
    rfl

/-- Witness for C6: two declared components raise; one declared component
reduces to the environment checks. -/
theorem C6_exactly_one_component_witness :
    require_worktree_component_dirs [] fmTwoComponents = .error msg_exactly_one ∧
    require_worktree_component_dirs [] fmOneComponent = checkComponentDirs [] ["a"] :=
  ⟨(C6_exactly_one_component [] fmTwoComponents rfl).1 (by decide),
   (C6_exactly_one_component [] fmOneComponent rfl).2 "a" rfl⟩

/-- C7: for a declared component, an unset (or empty) override variable —
primary and legacy alike — raises an error naming the component; a set
override whose normalized value contains `/components/.worktrees/` passes
the component on to the rest of the loop; a set override without that
segment raises the default-checkout refusal. -/
theorem C7_component_dir_override (env : List (String × String)) (c : String) (rest : List String) :
    (pyStrip (envOr env (componentDirKey c) (componentDirLegacy c)) = "" →
      checkComponentDirs env (c :: rest) = .error (msg_missing_dir c) ∧
      ∃ p q, msg_missing_dir c = p ++ c ++ q) ∧
    (pyStrip (envOr env (componentDirKey c) (componentDirLegacy c)) ≠ "" →
      strContains (pyReplace (pyStrip (envOr env (componentDirKey c) (componentDirLegacy c))) "\\" "/")
          "/components/.worktrees/" = true →
      checkComponentDirs env (c :: rest) = checkComponentDirs env rest) ∧
    (pyStrip (envOr env (componentDirKey c) (componentDirLegacy c)) ≠ "" →
      strContains (pyReplace (pyStrip (envOr env (componentDirKey c) (componentDirLegacy c))) "\\" "/")
          "/components/.worktrees/" = false →
      checkComponentDirs env (c :: rest) = .error (msg_not_worktree c)) := by
  refine ⟨?_, ?_, ?_⟩
  · intro hempty
    constructor
    · unfold checkComponentDirs
      dsimp only
      rw [hempty]
      rfl
    · refine ⟨"Happy Stacks: missing stack component dir override for ",
        ".\nFix (recommended):\n  happys edison task:scaffold <task-id> --yes\nOr manually:\n  happys wt new " ++
          c ++ " edison/<task-id>\n  happys stack wt <stack> -- use " ++ c ++ " /abs/path/to/worktree", ?_⟩
      simp [msg_missing_dir, String.append_assoc]
  · intro hne hcont
    simp only [checkComponentDirs]
    simp [hne, hcont]
  · intro hne hcont
    simp only [checkComponentDirs]
    simp [hne, hcont]

/-- Witness for C7 at component `my-comp`: unset raises naming it, a
worktree path passes, a default checkout path raises. -/
theorem C7_component_dir_override_witness :
    (checkComponentDirs [] ["my-comp"] = .error (msg_missing_dir "my-comp") ∧
      ∃ p q, msg_missing_dir "my-comp" = p ++ "my-comp" ++ q) ∧
    checkComponentDirs [("HAPPY_STACKS_COMPONENT_DIR_MY_COMP", "/x/components/.worktrees/foo")]
        ["my-comp"] = .ok true ∧
    checkComponentDirs [("HAPPY_STACKS_COMPONENT_DIR_MY_COMP", "/x/components/my-comp")]
        ["my-comp"] = .error (msg_not_worktree "my-comp") :=
  ⟨(C7_component_dir_override [] "my-comp" []).1 rfl,
   ((C7_component_dir_override [("HAPPY_STACKS_COMPONENT_DIR_MY_COMP", "/x/components/.worktrees/foo")]
        "my-comp" []).2.1 (by decide) (by decide)).trans rfl,
   (C7_component_dir_override [("HAPPY_STACKS_COMPONENT_DIR_MY_COMP", "/x/components/my-comp")]
        "my-comp" []).2.2 (by decide) (by decide)⟩

/-- C8 counterexample: a component-kind task with an empty derived
component set is rejected with the "must target exactly one component"
error, not the "must declare component(s)" error the claim requires. -/
theorem C8_counterexample :
    require_worktree_component_dirs [] [("hs_kind", Val.vstr "component")] = .error msg_exactly_one ∧
    msg_exactly_one ≠ msg_declare_components ∧
    strContains msg_exactly_one "must declare component(s)" = false :=
  ⟨rfl, by decide, by decide⟩

/-- C8 (amended): a task reaching WorktreeComponentDirs with an empty
derived component set always fails: a track task with the "must declare
component(s)" error, a component task with the "must target exactly one
component" error (its count check fires first). -/
theorem C8_empty_components (env : List (String × String)) (fm : Frontmatter) :
    (pyLower (pyStrip (strOr (fmGet fm "hs_kind"))) = "track" →
      parseComponentsVal (fmGet fm "components") = [] →
      require_worktree_component_dirs env fm = .error msg_declare_components) ∧
    (pyLower (pyStrip (strOr (fmGet fm "hs_kind"))) = "component" →
      deriveComponentsComponent fm = [] →
      require_worktree_component_dirs env fm = .error msg_exactly_one) := by
  constructor
  · intro hk hempty
    unfold require_worktree_component_dirs
    dsimp only
    rw [hk, hempty]
    rfl
  · intro hk hempty
    unfold require_worktree_component_dirs
    dsimp only
    rw [hk, hempty]
    rfl

/-- Witness for C8 (amended): the two concrete empty-set rejections. -/
theorem C8_empty_components_witness :
    require_worktree_component_dirs [] [("hs_kind", Val.vstr "track")] = .error msg_declare_components ∧
    require_worktree_component_dirs [] [("hs_kind", Val.vstr "component")] = .error msg_exactly_one :=
  ⟨(C8_empty_components [] [("hs_kind", Val.vstr "track")]).1 rfl rfl,
   (C8_empty_components [] [("hs_kind", Val.vstr "component")]).2 rfl rfl⟩

/-- C10: for a component-kind task with a non-blank string `component`
field, the derived component set is exactly that single name — the
`components` field is ignored — and WorktreeComponentDirs reduces to the
environment checks for it, passing the exactly-one count check whatever
`components` lists. -/
theorem C10_component_field_priority (env : List (String × String)) (fm : Frontmatter) (s : String)
    (hk : pyLower (pyStrip (strOr (fmGet fm "hs_kind"))) = "component")
    (hc : fmGet fm "component" = Val.vstr s) (hs : pyStrip s ≠ "") :
    deriveComponentsComponent fm = [pyStrip s] ∧
    require_worktree_component_dirs env fm = checkComponentDirs env [pyStrip s] := by
  have h1 : deriveComponentsComponent fm = [pyStrip s] := by
    unfold deriveComponentsComponent
    rw [hc]
    simp [hs]
  refine ⟨h1, ?_⟩
  unfold require_worktree_component_dirs
  dsimp only
  rw [hk, h1]
  rfl

/-- Witness for C10: `component: happy` wins over a three-element
`components` list. -/
theorem C10_component_field_priority_witness :
    deriveComponentsComponent fmC10 = ["happy"] ∧
    require_worktree_component_dirs [] fmC10 = checkComponentDirs [] ["happy"] :=
  C10_component_field_priority [] fmC10 "happy" rfl rfl (by decide)

end HappyStacks
